import Mathlib

/-!
Verification development for the Visionary repository: a browser image-generation
front end with an OAuth-gated export workflow (file upload, find-or-create
spreadsheet, append row).  The server handlers (`src/api/save-to-google.ts`,
`src/api/auth/google/status.ts`, `src/api/auth/google/callback.ts`) and the
client application logic (`handleGenerate`, `deleteFromHistory`, history
insertion in the React component) are shallowly embedded below.  Remote Google
API calls are modelled by an environment oracle (`GoogleEnv`) giving each
call's result, and the handler returns the list of calls it issued, in order.
Platform primitives used by the code are modelled faithfully:
`JSON.parse` success is decided by a JSON skip-parser, `encodeURIComponent` /
`decodeURIComponent` work over UTF-8 percent-encoding, and `String.prototype.trim`
uses the ECMAScript whitespace set.
-/

namespace Visionary

/-! ## Model of JSON.parse success (ECMA-404 grammar, skip-parser) -/

/-- JSON whitespace characters (space, tab, line feed, carriage return). -/
def isJsonWs (c : Char) : Bool :=
  c = ' ' || c = '\t' || c = '\n' || c = '\r'

/-- Drop leading JSON whitespace. -/
def jsonSkipWs (cs : List Char) : List Char :=
  cs.dropWhile isJsonWs

/-- Value of one hexadecimal digit, if the character is one. -/
def hexValChar (c : Char) : Option Nat :=
  if '0' ≤ c ∧ c ≤ '9' then some (c.toNat - '0'.toNat)
  else if 'a' ≤ c ∧ c ≤ 'f' then some (c.toNat - 'a'.toNat + 10)
  else if 'A' ≤ c ∧ c ≤ 'F' then some (c.toNat - 'A'.toNat + 10)
  else none

/-- Consume the rest of a JSON string literal (after the opening quote),
returning the remaining input, or `none` if the literal is malformed. -/
def jsonStringRest : List Char → Option (List Char)
  | [] => none
  | '"' :: rest => some rest
  | '\\' :: e :: rest =>
    if e = '"' ∨ e = '\\' ∨ e = '/' ∨ e = 'b' ∨ e = 'f' ∨ e = 'n' ∨ e = 'r' ∨ e = 't' then
      jsonStringRest rest
    else if e = 'u' then
      match rest with
      | a :: b :: c :: d :: rest2 =>
        if (hexValChar a).isSome ∧ (hexValChar b).isSome ∧
           (hexValChar c).isSome ∧ (hexValChar d).isSome then
          jsonStringRest rest2
        else none
      | _ => none
    else none
  | c :: rest => if c.toNat < 0x20 then none else jsonStringRest rest

/-- Consume the optional exponent part of a JSON number. -/
def jsonExpPart (cs : List Char) : Option (List Char) :=
  match cs with
  | c :: rest =>
    if c = 'e' ∨ c = 'E' then
      let rest2 := match rest with
        | s :: r2 => if s = '+' ∨ s = '-' then r2 else s :: r2
        | [] => []
      match rest2 with
      | d :: _ => if d.isDigit then some (rest2.dropWhile Char.isDigit) else none
      | [] => none
    else some (c :: rest)
  | [] => some []

/-- Consume the optional fraction part of a JSON number, then the exponent. -/
def jsonFracPart (cs : List Char) : Option (List Char) :=
  match cs with
  | '.' :: rest =>
    match rest with
    | d :: _ => if d.isDigit then jsonExpPart (rest.dropWhile Char.isDigit) else none
    | [] => none
  | _ => jsonExpPart cs

/-- Consume a JSON number assumed to start at the head of the input. -/
def jsonNumber (cs : List Char) : Option (List Char) :=
  let cs1 := match cs with
    | '-' :: rest => rest
    | _ => cs
  match cs1 with
  | '0' :: rest => jsonFracPart rest
  | c :: rest => if c.isDigit then jsonFracPart (rest.dropWhile Char.isDigit) else none
  | [] => none

mutual

/-- Consume one JSON value at the head of the input, fuel-bounded. -/
def jsonValue : Nat → List Char → Option (List Char)
  | 0, _ => none
  | fuel+1, cs =>
    match cs with
    | 'n' :: 'u' :: 'l' :: 'l' :: rest => some rest
    | 't' :: 'r' :: 'u' :: 'e' :: rest => some rest
    | 'f' :: 'a' :: 'l' :: 's' :: 'e' :: rest => some rest
    | '"' :: rest => jsonStringRest rest
    | '[' :: rest =>
      match jsonSkipWs rest with
      | ']' :: rest2 => some rest2
      | cs2 => jsonArrayItems fuel cs2
    | '{' :: rest =>
      match jsonSkipWs rest with
      | '}' :: rest2 => some rest2
      | cs2 => jsonObjectItems fuel cs2
    | c :: _ => if c = '-' ∨ c.isDigit then jsonNumber cs else none
    | [] => none

/-- Consume the items of a JSON array after the opening bracket, fuel-bounded. -/
def jsonArrayItems : Nat → List Char → Option (List Char)
  | 0, _ => none
  | fuel+1, cs => do
    let rest ← jsonValue fuel cs
    match jsonSkipWs rest with
    | ',' :: rest2 => jsonArrayItems fuel (jsonSkipWs rest2)
    | ']' :: rest2 => some rest2
    | _ => none

/-- Consume the members of a JSON object after the opening brace, fuel-bounded. -/
def jsonObjectItems : Nat → List Char → Option (List Char)
  | 0, _ => none
  | fuel+1, cs =>
    match cs with
    | '"' :: rest => do
      let rest1 ← jsonStringRest rest
      match jsonSkipWs rest1 with
      | ':' :: rest2 => do
        let rest3 ← jsonValue fuel (jsonSkipWs rest2)
        match jsonSkipWs rest3 with
        | ',' :: rest4 => jsonObjectItems fuel (jsonSkipWs rest4)
        | '}' :: rest4 => some rest4
        | _ => none
      | _ => none
    | _ => none

end

/-- Whether `JSON.parse` succeeds on the given text: one JSON value surrounded
only by whitespace. -/
def jsonParses (s : String) : Bool :=
  match jsonValue (s.length + 1) (jsonSkipWs s.data) with
  | some rest => (jsonSkipWs rest).isEmpty
  | none => false

/-! ## Status handler (`src/api/auth/google/status.ts`)

`statusHandler` reads `req.cookies.google_tokens` (the cookie value after
cookie-parser decoding, or `none` when the cookie is absent) and responds
`{ isAuthenticated: !!tokens }`.  JavaScript string truthiness is: a string is
truthy iff it is non-empty. -/

/-- Truthiness of a JavaScript string: non-empty. -/
def jsTruthyString (s : String) : Bool :=
  !(s == "")

/-- The `isAuthenticated` value returned by the status handler for a request
whose (decoded) `google_tokens` cookie is the given optional string. -/
def statusHandler (cookieGoogleTokens : Option String) : Bool :=
  match cookieGoogleTokens with
  | none => false
  | some tokens => jsTruthyString tokens

/-! ## Token serialization in the callback handler (`callback.ts`)

The callback handler stores `encodeURIComponent(JSON.stringify(tokens))` as the
`google_tokens` cookie value.  The token set delivered by the OAuth code
exchange is opaque to this system; it is modelled as a record of the fields the
provider returns, and `JSON.stringify` on it is modelled field by field
(optional fields are omitted when absent, as `JSON.stringify` omits
`undefined` properties). -/

structure OAuthTokenSet where
  access_token : String
  refresh_token : Option String
  scope : String
  token_type : String
  expiry_date : Option Int
deriving Repr, DecidableEq

/-- Lowercase hexadecimal digit for a value below 16. -/
def hexDigitLower (n : Nat) : Char :=
  if n < 10 then Char.ofNat (48 + n) else Char.ofNat (97 + n - 10)

/-- Uppercase hexadecimal digit for a value below 16. -/
def hexDigitUpper (n : Nat) : Char :=
  if n < 10 then Char.ofNat (48 + n) else Char.ofNat (65 + n - 10)

/-- Escaping of one character inside a JSON string literal, as
`JSON.stringify` performs it. -/
def jsonEscapeChar (c : Char) : List Char :=
  if c = '"' then ['\\', '"']
  else if c = '\\' then ['\\', '\\']
  else if c.toNat = 8 then ['\\', 'b']
  else if c = '\t' then ['\\', 't']
  else if c = '\n' then ['\\', 'n']
  else if c.toNat = 12 then ['\\', 'f']
  else if c = '\r' then ['\\', 'r']
  else if c.toNat < 0x20 then
    ['\\', 'u', '0', '0', hexDigitLower (c.toNat / 16), hexDigitLower (c.toNat % 16)]
  else [c]

/-- A JSON string literal for the given text, as `JSON.stringify` renders it. -/
def jsonStringifyString (s : String) : String :=
  String.mk ('"' :: s.data.flatMap jsonEscapeChar ++ ['"'])

/-- Model of `JSON.stringify(tokens)` for a token set: an object literal with
the present fields. -/
def jsonStringifyTokens (t : OAuthTokenSet) : String :=
  "\x7b\"access_token\":" ++ jsonStringifyString t.access_token ++
  (match t.refresh_token with
   | some r => ",\"refresh_token\":" ++ jsonStringifyString r
   | none => "") ++
  ",\"scope\":" ++ jsonStringifyString t.scope ++
  ",\"token_type\":" ++ jsonStringifyString t.token_type ++
  (match t.expiry_date with
   | some e => ",\"expiry_date\":" ++ toString e
   | none => "") ++
  "\x7d"

/-! ## encodeURIComponent / decodeURIComponent

`encodeURIComponent` leaves unreserved characters alone and percent-encodes
the UTF-8 bytes of every other character.  `decodeURIComponent` inverts this,
failing (throwing `URIError`) on malformed percent sequences or invalid UTF-8;
cookie-parser falls back to the raw value when decoding throws. -/

/-- Characters `encodeURIComponent` leaves unescaped. -/
def isUriUnreserved (c : Char) : Bool :=
  ('A' ≤ c && c ≤ 'Z') || ('a' ≤ c && c ≤ 'z') || ('0' ≤ c && c ≤ '9') ||
  c = '-' || c = '_' || c = '.' || c = '!' || c = '~' || c = '*' ||
  c.toNat = 39 || c = '(' || c = ')'

/-- UTF-8 encoding of one character, as a list of byte values. -/
def utf8EncodeChar (c : Char) : List Nat :=
  let n := c.toNat
  if n < 0x80 then [n]
  else if n < 0x800 then [0xC0 + n / 64, 0x80 + n % 64]
  else if n < 0x10000 then [0xE0 + n / 4096, 0x80 + (n / 64) % 64, 0x80 + n % 64]
  else [0xF0 + n / 262144, 0x80 + (n / 4096) % 64, 0x80 + (n / 64) % 64, 0x80 + n % 64]

/-- Percent-escape of one byte, with uppercase hexadecimal digits. -/
def pctEncodeByte (b : Nat) : List Char :=
  ['%', hexDigitUpper (b / 16), hexDigitUpper (b % 16)]

/-- Model of `encodeURIComponent`. -/
def encodeURIComponent (s : String) : String :=
  String.mk (s.data.flatMap fun c =>
    if isUriUnreserved c then [c] else (utf8EncodeChar c).flatMap pctEncodeByte)

/-- Read one percent-escaped UTF-8 continuation byte, returning its low six
bits and the remaining input. -/
def readContByte : List Char → Option (Nat × List Char)
  | '%' :: h1 :: h2 :: rest =>
    match hexValChar h1, hexValChar h2 with
    | some a, some b =>
      let byte := 16 * a + b
      if 0x80 ≤ byte ∧ byte < 0xC0 then some (byte - 0x80, rest) else none
    | _, _ => none
  | _ => none

/-- Build a decoded character from a code point, rejecting surrogates and
out-of-range values (decodeURIComponent throws on those). -/
def mkDecodedChar (cp : Nat) (rest : List Char) : Option (Char × List Char) :=
  if cp < 0xD800 ∨ (0xDFFF < cp ∧ cp < 0x110000) then some (Char.ofNat cp, rest) else none

/-- Decode one unit of `decodeURIComponent` input: either a literal character
or one percent-escaped UTF-8 code-point encoding. -/
def decodeOne : List Char → Option (Char × List Char)
  | [] => none
  | '%' :: h1 :: h2 :: rest =>
    match hexValChar h1, hexValChar h2 with
    | some a, some b =>
      let byte := 16 * a + b
      if byte < 0x80 then some (Char.ofNat byte, rest)
      else if byte < 0xC0 then none
      else if byte < 0xE0 then
        match readContByte rest with
        | some (b2, rest2) =>
          let cp := (byte - 0xC0) * 64 + b2
          if 0x80 ≤ cp then mkDecodedChar cp rest2 else none
        | none => none
      else if byte < 0xF0 then
        match readContByte rest with
        | some (b2, rest2) =>
          match readContByte rest2 with
          | some (b3, rest3) =>
            let cp := (byte - 0xE0) * 4096 + b2 * 64 + b3
            if 0x800 ≤ cp then mkDecodedChar cp rest3 else none
          | none => none
        | none => none
      else if byte < 0xF8 then
        match readContByte rest with
        | some (b2, rest2) =>
          match readContByte rest2 with
          | some (b3, rest3) =>
            match readContByte rest3 with
            | some (b4, rest4) =>
              let cp := (byte - 0xF0) * 262144 + b2 * 4096 + b3 * 64 + b4
              if 0x10000 ≤ cp then mkDecodedChar cp rest4 else none
            | none => none
          | none => none
        | none => none
      else none
    | _, _ => none
  | '%' :: _ => none
  | c :: rest => some (c, rest)

/-- Fuel-bounded decoding loop of `decodeURIComponent`. -/
def decodeURIChars : Nat → List Char → Option (List Char)
  | 0, _ => none
  | _+1, [] => some []
  | fuel+1, c :: rest =>
    match decodeOne (c :: rest) with
    | some (ch, rest2) => (decodeURIChars fuel rest2).map (ch :: ·)
    | none => none

/-- Model of `decodeURIComponent`: `none` models a thrown `URIError`. -/
def decodeURIComponentModel (s : String) : Option String :=
  (decodeURIChars (s.data.length + 1) s.data).map String.mk

/-- Cookie value as cookie-parser presents it: `decodeURIComponent` of the raw
value, falling back to the raw value if decoding throws. -/
def cookieParserDecode (v : String) : String :=
  (decodeURIComponentModel v).getD v

/-- The `google_tokens` cookie value installed by the callback handler:
`encodeURIComponent(JSON.stringify(tokens))`. -/
def callbackSetCookieValue (tokens : OAuthTokenSet) : String :=
  encodeURIComponent (jsonStringifyTokens tokens)

/-- The full `Set-Cookie` header written by the callback handler. -/
def callbackSetCookieHeader (tokens : OAuthTokenSet) : String :=
  "google_tokens=" ++ callbackSetCookieValue tokens ++
  "; Path=/; HttpOnly; Secure; SameSite=None; Max-Age=2592000"

/-! ## Export handler (`src/api/save-to-google.ts`)

`saveToGoogleHandler` is embedded as a function of the (decoded) cookie, the
request body, an environment oracle giving the result of each Google API call,
and the current time (`Date.now()` in epoch-ms and the `toISOString()`
rendering of the append-time clock read, both inputs of the model).  It
returns the HTTP outcome together with the list of Google API calls issued,
in order.  `JSON.parse(tokensStr)` runs outside the handler's try/catch, so a
parse failure is modelled as the `uncaught` outcome (the thrown `SyntaxError`
escapes the handler); `Buffer.from(undefined, 'base64')` — reached when the
`imageData` string has no comma, so `split(',')[1]` is `undefined` — throws a
`TypeError` inside the try block and is caught. -/

/-- Body of a `POST /api/save-to-google` request. -/
structure SaveRequestBody where
  imageData : String
  prompt : String
  aspectRatio : String
deriving Repr, DecidableEq

/-- One outbound Google API call, with the arguments the handler passes. -/
inductive GoogleCall where
  | uploadFile (name : String) (mimeType : String) (base64Body : String)
  | listFiles (q : String) (fields : String)
  | createSpreadsheet (title : String) (sheetTitles : List String)
  | updateValues (spreadsheetId : String) (range : String) (valueInputOption : String)
      (values : List (List String))
  | appendValues (spreadsheetId : String) (range : String) (valueInputOption : String)
      (values : List (List String))
deriving Repr, DecidableEq

/-- Result fields the handler reads from `drive.files.create`. -/
structure DriveFile where
  id : String
  webViewLink : String
deriving Repr, DecidableEq

/-- Environment oracle: the result each Google API call would return.  An
`Except.error` carries the thrown error's `message` (empty string models a
falsy message).  `listResult`'s payload is the optional `files` array, holding
the ids of the matching spreadsheets. -/
structure GoogleEnv where
  uploadResult : Except String DriveFile
  listResult : Except String (Option (List String))
  createResult : Except String String
  updateResult : Except String Unit
  appendResult : Except String Unit
deriving Repr

/-- JSON body of the handler's HTTP response. -/
inductive ResponseBody where
  | successBody (fileLink : String)
  | errorBody (error : String)
deriving Repr, DecidableEq

/-- Outcome of one handler invocation: an HTTP response, or an exception that
escaped the handler uncaught. -/
inductive HandlerOutcome where
  | response (status : Nat) (body : ResponseBody)
  | uncaught
deriving Repr, DecidableEq

/-- JavaScript `error.message || fallback`: the fallback replaces a falsy
(empty) message. -/
def messageOr (msg fallback : String) : String :=
  if msg = "" then fallback else msg

/-- Message of the `TypeError` Node throws for `Buffer.from(undefined, 'base64')`. -/
def bufferTypeErrorMsg : String :=
  "The first argument must be of type string or an instance of Buffer, ArrayBuffer, or Array or an Array-like Object. Received undefined"

/-- Model of JavaScript `String.prototype.split` with a one-character
separator (accumulator-based, keeps empty fields). -/
def splitOnCharAux (sep : Char) : List Char → List Char → List String
  | [], acc => [String.mk acc.reverse]
  | c :: rest, acc =>
    if c = sep then String.mk acc.reverse :: splitOnCharAux sep rest []
    else splitOnCharAux sep rest (c :: acc)

/-- `imageData.split(',')` as the handler performs it. -/
def jsSplitComma (s : String) : List String :=
  splitOnCharAux ',' s.data []

/-- The query string of the spreadsheet lookup. -/
def spreadsheetQuery : String :=
  "name = " ++ String.mk [Char.ofNat 39] ++ "Visionary AI Generations" ++ String.mk [Char.ofNat 39] ++
  " and mimeType = " ++ String.mk [Char.ofNat 39] ++ "application/vnd.google-apps.spreadsheet" ++ String.mk [Char.ofNat 39]

/-- Shallow embedding of `saveToGoogleHandler`. -/
def saveToGoogleHandler (cookieGoogleTokens : Option String) (body : SaveRequestBody)
    (env : GoogleEnv) (nowMs : Nat) (nowIso : String) :
    HandlerOutcome × List GoogleCall :=
  match cookieGoogleTokens with
  | none => (.response 401 (.errorBody "Not authenticated with Google"), [])
  | some tokensStr =>
    if jsonParses tokensStr then
      match (jsSplitComma body.imageData)[1]? with
      | none =>
        (.response 500 (.errorBody (messageOr bufferTypeErrorMsg "Failed to save to Google")), [])
      | some base64Data =>
        let fileCreate := GoogleCall.uploadFile
          ("Visionary_" ++ toString nowMs ++ ".png") "image/png" base64Data
        match env.uploadResult with
        | .error e =>
          (.response 500 (.errorBody (messageOr e "Failed to save to Google")), [fileCreate])
        | .ok driveFile =>
          let fileLink := driveFile.webViewLink
          let filesList := GoogleCall.listFiles spreadsheetQuery "files(id)"
          match env.listResult with
          | .error e =>
            (.response 500 (.errorBody (messageOr e "Failed to save to Google")),
             [fileCreate, filesList])
          | .ok files? =>
            let appendTo := fun (spreadsheetId : String) (callsSoFar : List GoogleCall) =>
              let valuesAppend := GoogleCall.appendValues spreadsheetId "Generations!A:D" "RAW"
                [[nowIso, body.prompt, body.aspectRatio, fileLink]]
              match env.appendResult with
              | .error e =>
                (HandlerOutcome.response 500 (.errorBody (messageOr e "Failed to save to Google")),
                 callsSoFar ++ [valuesAppend])
              | .ok _ =>
                (HandlerOutcome.response 200 (.successBody fileLink),
                 callsSoFar ++ [valuesAppend])
            match files? with
            | some (firstFileId :: _) => appendTo firstFileId [fileCreate, filesList]
            | _ =>
              let sheetsCreate := GoogleCall.createSpreadsheet "Visionary AI Generations"
                ["Generations"]
              match env.createResult with
              | .error e =>
                (.response 500 (.errorBody (messageOr e "Failed to save to Google")),
                 [fileCreate, filesList, sheetsCreate])
              | .ok spreadsheetId =>
                let valuesUpdate := GoogleCall.updateValues spreadsheetId "Generations!A1:D1" "RAW"
                  [["Timestamp", "Prompt", "Aspect Ratio", "Drive Link"]]
                match env.updateResult with
                | .error e =>
                  (.response 500 (.errorBody (messageOr e "Failed to save to Google")),
                   [fileCreate, filesList, sheetsCreate, valuesUpdate])
                | .ok _ =>
                  appendTo spreadsheetId [fileCreate, filesList, sheetsCreate, valuesUpdate]
    else
      (.uncaught, [])

/-- The upload call the handler issues, for use in theorem statements. -/
def uploadCall (nowMs : Nat) (base64Data : String) : GoogleCall :=
  .uploadFile ("Visionary_" ++ toString nowMs ++ ".png") "image/png" base64Data

/-- The spreadsheet-listing call the handler issues. -/
def listCall : GoogleCall :=
  .listFiles spreadsheetQuery "files(id)"

/-- The spreadsheet-creation call the handler issues. -/
def createCall : GoogleCall :=
  .createSpreadsheet "Visionary AI Generations" ["Generations"]

/-- The header-row write the handler issues after creating the spreadsheet. -/
def headerCall (spreadsheetId : String) : GoogleCall :=
  .updateValues spreadsheetId "Generations!A1:D1" "RAW"
    [["Timestamp", "Prompt", "Aspect Ratio", "Drive Link"]]

/-- The data-row append the handler issues. -/
def appendCall (spreadsheetId nowIso promptText aspectRatioText fileLink : String) : GoogleCall :=
  .appendValues spreadsheetId "Generations!A:D" "RAW"
    [[nowIso, promptText, aspectRatioText, fileLink]]

/-- Whether a handler outcome is an HTTP response (as opposed to an uncaught
exception). -/
def isHttpResponse : HandlerOutcome → Bool
  | .response _ _ => true
  | .uncaught => false

/-- Whether the `google_tokens` cookie is present but its value does not parse
as JSON. -/
def cookiePresentUnparseable : Option String → Bool
  | none => false
  | some s => !(jsonParses s)

/-- A concrete request body with a well-formed data-URI, used to evaluate the
handler at specific inputs. -/
def sampleBody : SaveRequestBody :=
  { imageData := "data:image/png;base64,AAAA", prompt := "p", aspectRatio := "1:1" }

/-- A concrete environment in which upload, listing (finding nothing),
creation and header write succeed and the append step fails. -/
def appendFailEnv : GoogleEnv :=
  { uploadResult := .ok { id := "f1", webViewLink := "http://file" }
    listResult := .ok (some [])
    createResult := .ok "newsheet"
    updateResult := .ok ()
    appendResult := .error "append failed" }

/-! ## Client application state (React component in the repository's app file)

`handleGenerate` is embedded as a function of the pre-call client state, the
upstream response to `POST /api/openrouter-generate`, and the base-36 rendering
of the `Math.random()` value used for the new image id
(`Math.random().toString(36)` — `substring(7)` of it is applied here, as in the
source).  It returns the settled client state after the async function
finishes (the `finally` block has reset `isGenerating`) together with whether
the network call was performed.  `deleteFromHistory` and the history insertion
`[newImage, ...prev].slice(0, 20)` are embedded directly. -/

/-- A generated image record kept in client state and history. -/
structure GeneratedImage where
  id : String
  url : String
  prompt : String
  aspectRatio : String
  timestamp : Int
deriving Repr, DecidableEq

/-- The pieces of client component state that generation and history touch. -/
structure ClientState where
  prompt : String
  aspectRatio : String
  isGenerating : Bool
  currentImage : Option GeneratedImage
  history : List GeneratedImage
  error : Option String
deriving Repr, DecidableEq

/-- The parsed JSON response of `POST /api/openrouter-generate`, with its HTTP
status.  `error` is the optional `error` field read on failure. -/
structure UpstreamGenResult where
  status : Nat
  url : String
  prompt : String
  timestamp : Int
  error : Option String
deriving Repr, DecidableEq

/-- ECMAScript whitespace (WhiteSpace and LineTerminator code points), the set
`String.prototype.trim` strips. -/
def isJsWhitespace (c : Char) : Bool :=
  c = ' ' || c = '\t' || c = '\n' || c = '\r' ||
  c.toNat = 0x0B || c.toNat = 0x0C || c.toNat = 0xA0 || c.toNat = 0xFEFF ||
  c.toNat = 0x1680 || (0x2000 ≤ c.toNat && c.toNat ≤ 0x200A) ||
  c.toNat = 0x2028 || c.toNat = 0x2029 || c.toNat = 0x202F ||
  c.toNat = 0x205F || c.toNat = 0x3000

/-- Model of `String.prototype.trim`. -/
def jsTrim (s : String) : String :=
  String.mk (((s.data.dropWhile isJsWhitespace).reverse.dropWhile isJsWhitespace).reverse)

/-- Model of `String.prototype.substring(i)`: the characters from index `i`
on, empty when the string is shorter. -/
def jsSubstringFrom (s : String) (i : Nat) : String :=
  String.mk (s.data.drop i)

/-- History insertion as performed by `handleGenerate`:
`[newImage, ...prev].slice(0, 20)`. -/
def insertIntoHistory (newImage : GeneratedImage) (prev : List GeneratedImage) :
    List GeneratedImage :=
  (newImage :: prev).take 20

/-- Shallow embedding of the client's `handleGenerate`.  The returned `Bool`
records whether the generation request was sent. -/
def handleGenerate (st : ClientState) (upstream : UpstreamGenResult)
    (randBase36 : String) : ClientState × Bool :=
  if jsTrim st.prompt = "" then (st, false)
  else if upstream.status ≠ 200 then
    let thrownMsg := messageOr (upstream.error.getD "") "Failed to generate image via OpenRouter"
    ({ st with isGenerating := false,
               error := some (messageOr thrownMsg "Something went wrong during generation.") },
     true)
  else
    let newImage : GeneratedImage :=
      { id := jsSubstringFrom randBase36 7
        url := upstream.url
        prompt := upstream.prompt
        aspectRatio := st.aspectRatio
        timestamp := upstream.timestamp }
    ({ st with isGenerating := false, error := none,
               currentImage := some newImage,
               history := insertIntoHistory newImage st.history },
     true)

/-- Shallow embedding of the client's `deleteFromHistory`: filters the history
and clears the displayed image when its id matches. -/
def deleteFromHistory (deletedId : String) (history : List GeneratedImage)
    (currentImage : Option GeneratedImage) :
    List GeneratedImage × Option GeneratedImage :=
  (history.filter (fun img => img.id != deletedId),
   match currentImage with
   | some img => if img.id = deletedId then none else some img
   | none => none)

/-! ## Shared helper lemmas -/

/-- Trimming a string of whitespace-only characters yields the empty string. -/
theorem jsTrim_eq_empty_of_all_ws {s : String} (h : s.data.all isJsWhitespace = true) :
    jsTrim s = "" := by
  unfold jsTrim
  have h1 : s.data.dropWhile isJsWhitespace = [] :=
    List.dropWhile_eq_nil_iff.mpr (List.all_eq_true.mp h)
  rw [h1]
  rfl

/-! ## Claim C2 -/

/-- Claim C2: a save-to-google request whose cookies contain no
`google_tokens` value gets HTTP 401 with body
`{error: "Not authenticated with Google"}`, and no Google API call (upload,
listing, creation, or append) is performed. -/
theorem claim_C2_no_cookie_401_no_calls (body : SaveRequestBody) (env : GoogleEnv)
    (nowMs : Nat) (nowIso : String) :
    saveToGoogleHandler none body env nowMs nowIso =
      (.response 401 (.errorBody "Not authenticated with Google"), []) := rfl

/-! ## Claim C3 -/

/-- Claim C3, counterexample: the cookie value `"x"` is present but does not
parse as JSON, yet the status handler reports `isAuthenticated = true` — the
handler checks only truthiness (`!!tokens`), never parseability, so the
claimed "false for a present but unparseable cookie value" fails. -/
theorem claim_C3_counterexample :
    statusHandler (some "x") = true ∧ jsonParses "x" = false := by
  exact ⟨rfl, rfl⟩

/-- Claim C3 as amended: the status handler returns `isAuthenticated = true`
iff the request carries a `google_tokens` cookie with a non-empty value,
regardless of whether that value parses as a token set. -/
theorem claim_C3_status_presence_only (cookie : Option String) :
    statusHandler cookie = true ↔ ∃ s, cookie = some s ∧ s ≠ "" := by
  cases cookie with
  | none => simp [statusHandler]
  | some s => simp [statusHandler, jsTruthyString]

/-! ## Claim C6 -/

/-- Claim C6: inserting a newly generated image puts it at the front, the
resulting history is the new image followed by the first 19 old entries (so
most-recent-first order is preserved), its length never exceeds 20, and
insertion into a full 20-entry history evicts exactly the oldest (last)
entry. -/
theorem claim_C6_history_cap (newImage : GeneratedImage) (prev : List GeneratedImage) :
    (insertIntoHistory newImage prev).length ≤ 20 ∧
    insertIntoHistory newImage prev = newImage :: prev.take 19 ∧
    (prev.length = 20 → insertIntoHistory newImage prev = newImage :: prev.dropLast) := by
  refine ⟨?_, ?_, fun h => ?_⟩
  · simp only [insertIntoHistory, List.length_take]
    omega
  · simp [insertIntoHistory, List.take_succ_cons]
  · simp [insertIntoHistory, List.take_succ_cons, List.dropLast_eq_take, h]

/-- Claim C6, witness: the cap, front insertion, and eviction of the last
entry, evaluated on a concrete full 20-entry history. -/
theorem claim_C6_history_cap_witness :
    (insertIntoHistory
        { id := "new", url := "u", prompt := "p", aspectRatio := "1:1", timestamp := 0 }
        ((List.range 20).map fun n =>
          { id := toString n, url := "u", prompt := "p", aspectRatio := "1:1", timestamp := 0 })).length ≤ 20 ∧
    insertIntoHistory
        { id := "new", url := "u", prompt := "p", aspectRatio := "1:1", timestamp := 0 }
        ((List.range 20).map fun n =>
          { id := toString n, url := "u", prompt := "p", aspectRatio := "1:1", timestamp := 0 }) =
      { id := "new", url := "u", prompt := "p", aspectRatio := "1:1", timestamp := 0 } ::
        ((List.range 20).map fun n =>
          { id := toString n, url := "u", prompt := "p", aspectRatio := "1:1", timestamp := 0 }).take 19 ∧
    (((List.range 20).map fun n =>
          ({ id := toString n, url := "u", prompt := "p", aspectRatio := "1:1", timestamp := 0 } : GeneratedImage)).length = 20 →
      insertIntoHistory
          { id := "new", url := "u", prompt := "p", aspectRatio := "1:1", timestamp := 0 }
          ((List.range 20).map fun n =>
            { id := toString n, url := "u", prompt := "p", aspectRatio := "1:1", timestamp := 0 }) =
        { id := "new", url := "u", prompt := "p", aspectRatio := "1:1", timestamp := 0 } ::
          ((List.range 20).map fun n =>
            { id := toString n, url := "u", prompt := "p", aspectRatio := "1:1", timestamp := 0 }).dropLast) :=
  claim_C6_history_cap
    { id := "new", url := "u", prompt := "p", aspectRatio := "1:1", timestamp := 0 }
    ((List.range 20).map fun n =>
      { id := toString n, url := "u", prompt := "p", aspectRatio := "1:1", timestamp := 0 })

/-! ## Claim C9 -/

/-- Claim C9: deleting a history entry by id clears the displayed image
exactly when its id matches, leaves it unchanged otherwise (also when nothing
is displayed), removes exactly the entries carrying the deleted id, and keeps
the remaining entries in their relative order (the new history is a sublist of
the old). -/
theorem claim_C9_delete_frame (deletedId : String) (history : List GeneratedImage)
    (currentImage : Option GeneratedImage) :
    (∀ img, currentImage = some img → img.id = deletedId →
      (deleteFromHistory deletedId history currentImage).2 = none) ∧
    (∀ img, currentImage = some img → img.id ≠ deletedId →
      (deleteFromHistory deletedId history currentImage).2 = some img) ∧
    (currentImage = none → (deleteFromHistory deletedId history currentImage).2 = none) ∧
    (deleteFromHistory deletedId history currentImage).1.Sublist history ∧
    (∀ x, x ∈ (deleteFromHistory deletedId history currentImage).1 ↔
      x ∈ history ∧ x.id ≠ deletedId) := by
  refine ⟨?_, ?_, ?_, ?_, ?_⟩
  · rintro img rfl h
    simp [deleteFromHistory, h]
  · rintro img rfl h
    simp [deleteFromHistory, h]
  · rintro rfl
    simp [deleteFromHistory]
  · exact List.filter_sublist history
  · intro x
    simp [deleteFromHistory, List.mem_filter, bne_iff_ne]

/-- Claim C9, witness: deletion evaluated on a concrete two-entry history
whose displayed image is the deleted one. -/
theorem claim_C9_delete_frame_witness :
    (∀ img, (some { id := "a", url := "u", prompt := "p", aspectRatio := "1:1", timestamp := 0 } :
        Option GeneratedImage) = some img → img.id = "a" →
      (deleteFromHistory "a"
        [{ id := "a", url := "u", prompt := "p", aspectRatio := "1:1", timestamp := 0 },
         { id := "b", url := "u", prompt := "p", aspectRatio := "1:1", timestamp := 0 }]
        (some { id := "a", url := "u", prompt := "p", aspectRatio := "1:1", timestamp := 0 })).2 = none) ∧
    (∀ img, (some { id := "a", url := "u", prompt := "p", aspectRatio := "1:1", timestamp := 0 } :
        Option GeneratedImage) = some img → img.id ≠ "a" →
      (deleteFromHistory "a"
        [{ id := "a", url := "u", prompt := "p", aspectRatio := "1:1", timestamp := 0 },
         { id := "b", url := "u", prompt := "p", aspectRatio := "1:1", timestamp := 0 }]
        (some { id := "a", url := "u", prompt := "p", aspectRatio := "1:1", timestamp := 0 })).2 = some img) ∧
    ((some { id := "a", url := "u", prompt := "p", aspectRatio := "1:1", timestamp := 0 } :
        Option GeneratedImage) = none →
      (deleteFromHistory "a"
        [{ id := "a", url := "u", prompt := "p", aspectRatio := "1:1", timestamp := 0 },
         { id := "b", url := "u", prompt := "p", aspectRatio := "1:1", timestamp := 0 }]
        (some { id := "a", url := "u", prompt := "p", aspectRatio := "1:1", timestamp := 0 })).2 = none) ∧
    (deleteFromHistory "a"
        [{ id := "a", url := "u", prompt := "p", aspectRatio := "1:1", timestamp := 0 },
         { id := "b", url := "u", prompt := "p", aspectRatio := "1:1", timestamp := 0 }]
        (some { id := "a", url := "u", prompt := "p", aspectRatio := "1:1", timestamp := 0 })).1.Sublist
      [{ id := "a", url := "u", prompt := "p", aspectRatio := "1:1", timestamp := 0 },
       { id := "b", url := "u", prompt := "p", aspectRatio := "1:1", timestamp := 0 }] ∧
    (∀ x, x ∈ (deleteFromHistory "a"
        [{ id := "a", url := "u", prompt := "p", aspectRatio := "1:1", timestamp := 0 },
         { id := "b", url := "u", prompt := "p", aspectRatio := "1:1", timestamp := 0 }]
        (some { id := "a", url := "u", prompt := "p", aspectRatio := "1:1", timestamp := 0 })).1 ↔
      x ∈ [{ id := "a", url := "u", prompt := "p", aspectRatio := "1:1", timestamp := 0 },
           { id := "b", url := "u", prompt := "p", aspectRatio := "1:1", timestamp := 0 }] ∧
      x.id ≠ "a") :=
  claim_C9_delete_frame "a"
    [{ id := "a", url := "u", prompt := "p", aspectRatio := "1:1", timestamp := 0 },
     { id := "b", url := "u", prompt := "p", aspectRatio := "1:1", timestamp := 0 }]
    (some { id := "a", url := "u", prompt := "p", aspectRatio := "1:1", timestamp := 0 })

/-! ## Claim C10 -/

/-- Claim C10: invoking the client's generate action with a prompt that is
empty or all whitespace performs no network call and leaves the entire client
state (current image, history, error flag, in-progress flag) unchanged. -/
theorem claim_C10_blank_prompt_no_call (st : ClientState) (upstream : UpstreamGenResult)
    (randBase36 : String) (h : st.prompt.data.all isJsWhitespace = true) :
    handleGenerate st upstream randBase36 = (st, false) := by
  simp [handleGenerate, jsTrim_eq_empty_of_all_ws h]

/-- Claim C10, witness: a whitespace-only prompt on a concrete state performs
no call and changes nothing. -/
theorem claim_C10_blank_prompt_no_call_witness :
    handleGenerate
      { prompt := "  ", aspectRatio := "1:1", isGenerating := false,
        currentImage := none, history := [], error := none }
      { status := 200, url := "http://img", prompt := "  ", timestamp := 5, error := none }
      "abcdefgh" =
    ({ prompt := "  ", aspectRatio := "1:1", isGenerating := false,
       currentImage := none, history := [], error := none }, false) :=
  claim_C10_blank_prompt_no_call
    { prompt := "  ", aspectRatio := "1:1", isGenerating := false,
      currentImage := none, history := [], error := none }
    { status := 200, url := "http://img", prompt := "  ", timestamp := 5, error := none }
    "abcdefgh" (by decide)

/-! ## Claim C8 -/

/-- Claim C8, counterexample: id construction is
`Math.random().toString(36).substring(7)`, and `Math.random()` can return `0`
(a possible value of the random source), whose base-36 rendering is `"0"`;
`substring(7)` of it is empty.  On an otherwise successful generation the
constructed `GeneratedImage` then has an empty id, refuting "non-empty id for
every possible value of the random source".  (Any random value whose base-36
rendering has at most 7 characters, e.g. `0.5` rendered `"0.i"`, does the
same.) -/
theorem claim_C8_counterexample :
    (handleGenerate
      { prompt := "a cat", aspectRatio := "1:1", isGenerating := false,
        currentImage := none, history := [], error := none }
      { status := 200, url := "http://img", prompt := "a cat", timestamp := 5, error := none }
      "0").1.currentImage =
    some { id := "", url := "http://img", prompt := "a cat", aspectRatio := "1:1",
           timestamp := 5 } := rfl

/-- Claim C8 as amended: on a successful generation the constructed
`GeneratedImage` carries the upstream-returned url, prompt and timestamp, and
its id is the base-36 rendering of the random value with its first seven
characters removed — non-empty whenever that rendering is longer than seven
characters (not for every possible random value). -/
theorem claim_C8_generated_image_fields (st : ClientState) (upstream : UpstreamGenResult)
    (randBase36 : String) (hprompt : jsTrim st.prompt ≠ "") (hstatus : upstream.status = 200) :
    ∃ img, (handleGenerate st upstream randBase36).1.currentImage = some img ∧
      img.url = upstream.url ∧ img.timestamp = upstream.timestamp ∧
      img.prompt = upstream.prompt ∧ img.id = jsSubstringFrom randBase36 7 ∧
      (7 < randBase36.length → img.id ≠ "") := by
  refine ⟨{ id := jsSubstringFrom randBase36 7, url := upstream.url,
            prompt := upstream.prompt, aspectRatio := st.aspectRatio,
            timestamp := upstream.timestamp }, ?_, rfl, rfl, rfl, rfl, fun hlen => ?_⟩
  · simp [handleGenerate, hprompt, hstatus]
  · intro heq
    have heq' : jsSubstringFrom randBase36 7 = "" := heq
    have hdata : (jsSubstringFrom randBase36 7).data = randBase36.data.drop 7 := rfl
    rw [heq'] at hdata
    have : randBase36.data.length ≤ 7 := List.drop_eq_nil_iff.mp hdata.symm
    have hlength : randBase36.length = randBase36.data.length := rfl
    omega

/-- Claim C8, witness: a successful generation with an eight-character base-36
rendering yields the upstream fields and a non-empty id. -/
theorem claim_C8_generated_image_fields_witness :
    ∃ img, (handleGenerate
        { prompt := "a cat", aspectRatio := "1:1", isGenerating := false,
          currentImage := none, history := [], error := none }
        { status := 200, url := "http://img", prompt := "a cat", timestamp := 5, error := none }
        "0.k2j3h4").1.currentImage = some img ∧
      img.url = "http://img" ∧ img.timestamp = (5 : Int) ∧
      img.prompt = "a cat" ∧ img.id = jsSubstringFrom "0.k2j3h4" 7 ∧
      (7 < ("0.k2j3h4" : String).length → img.id ≠ "") :=
  claim_C8_generated_image_fields
    { prompt := "a cat", aspectRatio := "1:1", isGenerating := false,
      currentImage := none, history := [], error := none }
    { status := 200, url := "http://img", prompt := "a cat", timestamp := 5, error := none }
    "0.k2j3h4" (by decide) rfl

/-! ## Claim C7 -/

/-- The encoding of a single character is never empty. -/
theorem encodeOneChar_ne_nil (c : Char) :
    (if isUriUnreserved c then [c] else (utf8EncodeChar c).flatMap pctEncodeByte) ≠ [] := by
  by_cases h : isUriUnreserved c
  · simp [h]
  · simp only [h, if_neg, Bool.false_eq_true, not_false_eq_true]
    unfold utf8EncodeChar
    dsimp only
    split_ifs <;> simp [pctEncodeByte]

/-- `encodeURIComponent` of a non-empty string is non-empty. -/
theorem encodeURIComponent_data_ne_nil {s : String} (h : s.data ≠ []) :
    (encodeURIComponent s).data ≠ [] := by
  show s.data.flatMap _ ≠ []
  cases hs : s.data with
  | nil => exact absurd hs h
  | cons c cs =>
    simp only [List.flatMap_cons, ne_eq, List.append_eq_nil]
    intro hc
    exact encodeOneChar_ne_nil c hc.1

/-- A successful `decodeURIComponent` run on a non-empty input produces a
non-empty output. -/
theorem decodeURIChars_cons_ne_nil {fuel : Nat} {c : Char} {rest out : List Char}
    (h : decodeURIChars fuel (c :: rest) = some out) : out ≠ [] := by
  cases fuel with
  | zero => simp [decodeURIChars] at h
  | succ n =>
    rw [decodeURIChars] at h
    cases hd : decodeOne (c :: rest) with
    | none => rw [hd] at h; simp at h
    | some p =>
      rw [hd] at h
      obtain ⟨w, _, hw⟩ := Option.map_eq_some'.mp h
      rw [← hw]
      simp

/-- The serialized token set is non-empty (its first character is the opening
brace of the object literal). -/
theorem jsonStringifyTokens_data_ne_nil (t : OAuthTokenSet) :
    (jsonStringifyTokens t).data ≠ [] := by
  intro h
  have hlen : (jsonStringifyTokens t).length = 0 := by
    show (jsonStringifyTokens t).data.length = 0
    rw [h]
    rfl
  unfold jsonStringifyTokens at hlen
  have h16 : ("\x7b\"access_token\":" : String).length = 16 := rfl
  simp only [String.length_append, h16] at hlen
  omega

/-- The cookie value as cookie-parser presents it is non-empty whenever the
raw value is. -/
theorem cookieParserDecode_data_ne_nil {v : String} (h : v.data ≠ []) :
    (cookieParserDecode v).data ≠ [] := by
  unfold cookieParserDecode decodeURIComponentModel
  cases hdec : decodeURIChars (v.data.length + 1) v.data with
  | none => simpa [hdec] using h
  | some out =>
    cases hv : v.data with
    | nil => exact absurd hv h
    | cons c rest =>
      rw [hv] at hdec
      have hout : out ≠ [] := decodeURIChars_cons_ne_nil hdec
      simp [hout]

/-- Claim C7: a token set serialized by the callback handler
(JSON-stringified, then URL-encoded into the `google_tokens` cookie), when the
cookie is carried back and decoded by cookie-parser, makes the status handler
report `isAuthenticated = true`. -/
theorem claim_C7_cookie_roundtrip (t : OAuthTokenSet) :
    statusHandler (some (cookieParserDecode (callbackSetCookieValue t))) = true := by
  have h2 : (encodeURIComponent (jsonStringifyTokens t)).data ≠ [] :=
    encodeURIComponent_data_ne_nil (jsonStringifyTokens_data_ne_nil t)
  have h3 : (cookieParserDecode (callbackSetCookieValue t)).data ≠ [] := by
    unfold callbackSetCookieValue
    exact cookieParserDecode_data_ne_nil h2
  simp only [statusHandler, jsTruthyString, Bool.not_eq_eq_eq_not, Bool.not_true, beq_eq_false_iff_ne,
    ne_eq]
  intro heq
  rw [heq] at h3
  exact h3 rfl

/-! ## Claim C1 -/

/-- Claim C1: with a session cookie present and all steps succeeding, when the
listing returns at least one spreadsheet named `Visionary AI Generations` the
first listed id is reused and the call trace is exactly upload, list, append —
no creation and no header write; when the listing returns no such spreadsheet
(absent or empty `files`), the trace is exactly upload, list, create (one
spreadsheet with one sheet `Generations`), header write of
`['Timestamp', 'Prompt', 'Aspect Ratio', 'Drive Link']` to `A1:D1`, then
append.  In both cases exactly one data row
`[ISO-timestamp, prompt, aspectRatio, fileLink]` is appended. -/
theorem claim_C1_export_find_or_create (tokensStr base64Data : String)
    (body : SaveRequestBody) (env : GoogleEnv) (nowMs : Nat) (nowIso : String)
    (driveFile : DriveFile) (newSheetId : String)
    (hparse : jsonParses tokensStr = true)
    (himg : (jsSplitComma body.imageData)[1]? = some base64Data)
    (hup : env.uploadResult = .ok driveFile)
    (hcreate : env.createResult = .ok newSheetId)
    (hheader : env.updateResult = .ok ())
    (happend : env.appendResult = .ok ()) :
    (∀ firstId restIds, env.listResult = .ok (some (firstId :: restIds)) →
      saveToGoogleHandler (some tokensStr) body env nowMs nowIso =
        (.response 200 (.successBody driveFile.webViewLink),
         [uploadCall nowMs base64Data, listCall,
          appendCall firstId nowIso body.prompt body.aspectRatio driveFile.webViewLink])) ∧
    ((env.listResult = .ok none ∨ env.listResult = .ok (some [])) →
      saveToGoogleHandler (some tokensStr) body env nowMs nowIso =
        (.response 200 (.successBody driveFile.webViewLink),
         [uploadCall nowMs base64Data, listCall, createCall, headerCall newSheetId,
          appendCall newSheetId nowIso body.prompt body.aspectRatio driveFile.webViewLink])) := by
  constructor
  · intro firstId restIds hlist
    simp [saveToGoogleHandler, hparse, himg, hup, hlist, hcreate, hheader, happend,
      uploadCall, listCall, appendCall]
  · rintro (hlist | hlist) <;>
      simp [saveToGoogleHandler, hparse, himg, hup, hlist, hcreate, hheader, happend,
        uploadCall, listCall, createCall, headerCall, appendCall]

/-- Claim C1, witness: the reuse branch and the create branch evaluated on a
concrete request (the shared environment lists one existing spreadsheet, so
the reuse branch's hypothesis is discharged; the create branch's disjunctive
hypothesis is then vacuously dischargeable only in a second environment, so
this witness instantiates the theorem twice over the two environments and
keeps each branch's applicable conjunct). -/
theorem claim_C1_export_find_or_create_witness :
    saveToGoogleHandler (some "{}")
      { imageData := "data:image/png;base64,AAAA", prompt := "p", aspectRatio := "1:1" }
      { uploadResult := .ok { id := "f1", webViewLink := "http://file" },
        listResult := .ok (some ["sheet1", "sheet2"]), createResult := .ok "newsheet",
        updateResult := .ok (), appendResult := .ok () } 7 "2026-01-01T00:00:00.000Z" =
      (.response 200 (.successBody "http://file"),
       [uploadCall 7 "AAAA", listCall,
        appendCall "sheet1" "2026-01-01T00:00:00.000Z" "p" "1:1" "http://file"]) ∧
    saveToGoogleHandler (some "{}")
      { imageData := "data:image/png;base64,AAAA", prompt := "p", aspectRatio := "1:1" }
      { uploadResult := .ok { id := "f1", webViewLink := "http://file" },
        listResult := .ok (some []), createResult := .ok "newsheet",
        updateResult := .ok (), appendResult := .ok () } 7 "2026-01-01T00:00:00.000Z" =
      (.response 200 (.successBody "http://file"),
       [uploadCall 7 "AAAA", listCall, createCall, headerCall "newsheet",
        appendCall "newsheet" "2026-01-01T00:00:00.000Z" "p" "1:1" "http://file"]) := by
  constructor
  · exact (claim_C1_export_find_or_create "{}" "AAAA"
      { imageData := "data:image/png;base64,AAAA", prompt := "p", aspectRatio := "1:1" }
      { uploadResult := .ok { id := "f1", webViewLink := "http://file" },
        listResult := .ok (some ["sheet1", "sheet2"]), createResult := .ok "newsheet",
        updateResult := .ok (), appendResult := .ok () } 7 "2026-01-01T00:00:00.000Z"
      { id := "f1", webViewLink := "http://file" } "newsheet"
      (by decide) rfl rfl rfl rfl rfl).1 "sheet1" ["sheet2"] rfl
  · exact (claim_C1_export_find_or_create "{}" "AAAA"
      { imageData := "data:image/png;base64,AAAA", prompt := "p", aspectRatio := "1:1" }
      { uploadResult := .ok { id := "f1", webViewLink := "http://file" },
        listResult := .ok (some []), createResult := .ok "newsheet",
        updateResult := .ok (), appendResult := .ok () } 7 "2026-01-01T00:00:00.000Z"
      { id := "f1", webViewLink := "http://file" } "newsheet"
      (by decide) rfl rfl rfl rfl rfl).2 (Or.inr rfl)

/-! ## Claim C4 -/

/-- With a parseable cookie, every invocation of the handler ends in an HTTP
response whose status is 200, 401 or 500. -/
theorem handler_parseable_is_response (s : String) (body : SaveRequestBody) (env : GoogleEnv)
    (nowMs : Nat) (nowIso : String) (hp : jsonParses s = true) :
    ∃ status rbody,
      (saveToGoogleHandler (some s) body env nowMs nowIso).1 = .response status rbody ∧
      (status = 200 ∨ status = 401 ∨ status = 500) := by
  obtain ⟨u, l, cr, upd, ap⟩ := env
  cases himg : (jsSplitComma body.imageData)[1]? with
  | none =>
    refine ⟨500, .errorBody (messageOr bufferTypeErrorMsg "Failed to save to Google"), ?_, by simp⟩
    simp [saveToGoogleHandler, hp, himg]
  | some b64 =>
    cases u with
    | error e =>
      refine ⟨500, .errorBody (messageOr e "Failed to save to Google"), ?_, by simp⟩
      simp [saveToGoogleHandler, hp, himg]
    | ok df =>
      cases l with
      | error e =>
        refine ⟨500, .errorBody (messageOr e "Failed to save to Google"), ?_, by simp⟩
        simp [saveToGoogleHandler, hp, himg]
      | ok files? =>
        have createPath : ∀ (hfiles : files? = none ∨ files? = some []),
            ∃ status rbody,
              (saveToGoogleHandler (some s) body
                ⟨.ok df, .ok files?, cr, upd, ap⟩ nowMs nowIso).1 = .response status rbody ∧
              (status = 200 ∨ status = 401 ∨ status = 500) := by
          intro hfiles
          cases cr with
          | error e =>
            refine ⟨500, .errorBody (messageOr e "Failed to save to Google"), ?_, by simp⟩
            rcases hfiles with h | h <;> subst h <;> simp [saveToGoogleHandler, hp, himg]
          | ok sid =>
            cases upd with
            | error e =>
              refine ⟨500, .errorBody (messageOr e "Failed to save to Google"), ?_, by simp⟩
              rcases hfiles with h | h <;> subst h <;> simp [saveToGoogleHandler, hp, himg]
            | ok _ =>
              cases ap with
              | error e =>
                refine ⟨500, .errorBody (messageOr e "Failed to save to Google"), ?_, by simp⟩
                rcases hfiles with h | h <;> subst h <;> simp [saveToGoogleHandler, hp, himg]
              | ok _ =>
                refine ⟨200, .successBody df.webViewLink, ?_, by simp⟩
                rcases hfiles with h | h <;> subst h <;> simp [saveToGoogleHandler, hp, himg]
        cases files? with
        | none => exact createPath (Or.inl rfl)
        | some lst =>
          cases lst with
          | nil => exact createPath (Or.inr rfl)
          | cons fid fs =>
            cases ap with
            | error e =>
              refine ⟨500, .errorBody (messageOr e "Failed to save to Google"), ?_, by simp⟩
              simp [saveToGoogleHandler, hp, himg]
            | ok _ =>
              refine ⟨200, .successBody df.webViewLink, ?_, by simp⟩
              simp [saveToGoogleHandler, hp, himg]

/-- Claim C4, counterexample: the cookie value `"x"` is present but is not
valid JSON; `JSON.parse(tokensStr)` runs at line 27, before the `try` block
that starts at line 30, so the thrown `SyntaxError` escapes the handler
uncaught instead of being converted to a JSON error response — refuting "no
failure escapes the handler uncaught". -/
theorem claim_C4_counterexample :
    (saveToGoogleHandler (some "x")
      { imageData := "data:image/png;base64,AAAA", prompt := "p", aspectRatio := "1:1" }
      { uploadResult := .ok { id := "f", webViewLink := "http://file" },
        listResult := .ok (some ["s"]), createResult := .ok "s2",
        updateResult := .ok (), appendResult := .ok () } 0 "iso").1 =
    HandlerOutcome.uncaught := rfl

/-- Claim C4 as amended: failures are caught and converted to a JSON error
response (401 for a missing cookie, 500 otherwise, including a request body
without a well-formed `imageData` data-URI, which yields the caught
`TypeError` of `Buffer.from(undefined, 'base64')`) in every case EXCEPT a
present-but-unparseable cookie value, whose `JSON.parse` failure is raised
before the try block and escapes the handler uncaught. -/
theorem claim_C4_handler_boundary (cookie : Option String) (body : SaveRequestBody)
    (env : GoogleEnv) (nowMs : Nat) (nowIso : String) :
    (cookiePresentUnparseable cookie = false →
      ∃ status rbody,
        (saveToGoogleHandler cookie body env nowMs nowIso).1 = .response status rbody ∧
        (status = 200 ∨ status = 401 ∨ status = 500)) ∧
    (cookiePresentUnparseable cookie = true →
      (saveToGoogleHandler cookie body env nowMs nowIso).1 = .uncaught) ∧
    (∀ s, cookie = some s → jsonParses s = true → (jsSplitComma body.imageData)[1]? = none →
      (saveToGoogleHandler cookie body env nowMs nowIso).1 =
        .response 500 (.errorBody bufferTypeErrorMsg)) := by
  refine ⟨?_, ?_, ?_⟩
  · intro hok
    cases cookie with
    | none => exact ⟨401, .errorBody "Not authenticated with Google", rfl, by simp⟩
    | some s =>
      have hp : jsonParses s = true := by
        simpa [cookiePresentUnparseable] using hok
      exact handler_parseable_is_response s body env nowMs nowIso hp
  · intro hbad
    cases cookie with
    | none => simp [cookiePresentUnparseable] at hbad
    | some s =>
      have hp : jsonParses s = false := by
        simpa [cookiePresentUnparseable] using hbad
      simp [saveToGoogleHandler, hp]
  · rintro s rfl hp himg
    have hmsg : messageOr bufferTypeErrorMsg "Failed to save to Google" = bufferTypeErrorMsg := by
      simp [messageOr, bufferTypeErrorMsg]
    simp [saveToGoogleHandler, hp, himg, hmsg]

/-- Claim C4, witness: evaluated with a parseable cookie and an `imageData`
containing no comma — the failure is caught and becomes a 500 response with
the `TypeError` message — and with the unparseable cookie value `"nope"`,
where the outcome is the uncaught exception. -/
theorem claim_C4_handler_boundary_witness :
    (cookiePresentUnparseable (some "{}") = false →
      ∃ status rbody,
        (saveToGoogleHandler (some "{}")
          { imageData := "nocomma", prompt := "p", aspectRatio := "1:1" }
          { uploadResult := .ok { id := "f", webViewLink := "http://file" },
            listResult := .ok (some ["s"]), createResult := .ok "s2",
            updateResult := .ok (), appendResult := .ok () } 0 "iso").1 =
          .response status rbody ∧
        (status = 200 ∨ status = 401 ∨ status = 500)) ∧
    (cookiePresentUnparseable (some "{}") = true →
      (saveToGoogleHandler (some "{}")
        { imageData := "nocomma", prompt := "p", aspectRatio := "1:1" }
        { uploadResult := .ok { id := "f", webViewLink := "http://file" },
          listResult := .ok (some ["s"]), createResult := .ok "s2",
          updateResult := .ok (), appendResult := .ok () } 0 "iso").1 = .uncaught) ∧
    (∀ s, (some "{}" : Option String) = some s → jsonParses s = true →
      (jsSplitComma ("nocomma" : String))[1]? = none →
      (saveToGoogleHandler (some "{}")
        { imageData := "nocomma", prompt := "p", aspectRatio := "1:1" }
        { uploadResult := .ok { id := "f", webViewLink := "http://file" },
          listResult := .ok (some ["s"]), createResult := .ok "s2",
          updateResult := .ok (), appendResult := .ok () } 0 "iso").1 =
        .response 500 (.errorBody bufferTypeErrorMsg)) :=
  claim_C4_handler_boundary (some "{}")
    { imageData := "nocomma", prompt := "p", aspectRatio := "1:1" }
    { uploadResult := .ok { id := "f", webViewLink := "http://file" },
      listResult := .ok (some ["s"]), createResult := .ok "s2",
      updateResult := .ok (), appendResult := .ok () } 0 "iso"

/-! ## Claim C5 -/

/-- Claim C5: whichever step fails (upload, listing, creation, header write,
or append, in either the reuse or the create branch), the operation aborts
with HTTP 500 and an error body carrying the failing step's message when
non-empty, otherwise the fallback `"Failed to save to Google"`; the call
trace is exactly the calls attempted up to and including the failing one — no
later step runs and no compensating (rollback) call is ever issued, so
effects of steps completed before the failure (the uploaded file, a created
spreadsheet) remain in place. -/
theorem claim_C5_step_failure_aborts (tokensStr base64Data : String)
    (body : SaveRequestBody) (env : GoogleEnv) (nowMs : Nat) (nowIso : String)
    (hparse : jsonParses tokensStr = true)
    (himg : (jsSplitComma body.imageData)[1]? = some base64Data) :
    (∀ e, env.uploadResult = .error e →
      saveToGoogleHandler (some tokensStr) body env nowMs nowIso =
        (.response 500 (.errorBody (messageOr e "Failed to save to Google")),
         [uploadCall nowMs base64Data])) ∧
    (∀ df e, env.uploadResult = .ok df → env.listResult = .error e →
      saveToGoogleHandler (some tokensStr) body env nowMs nowIso =
        (.response 500 (.errorBody (messageOr e "Failed to save to Google")),
         [uploadCall nowMs base64Data, listCall])) ∧
    (∀ df e, env.uploadResult = .ok df →
      (env.listResult = .ok none ∨ env.listResult = .ok (some [])) →
      env.createResult = .error e →
      saveToGoogleHandler (some tokensStr) body env nowMs nowIso =
        (.response 500 (.errorBody (messageOr e "Failed to save to Google")),
         [uploadCall nowMs base64Data, listCall, createCall])) ∧
    (∀ df sid e, env.uploadResult = .ok df →
      (env.listResult = .ok none ∨ env.listResult = .ok (some [])) →
      env.createResult = .ok sid → env.updateResult = .error e →
      saveToGoogleHandler (some tokensStr) body env nowMs nowIso =
        (.response 500 (.errorBody (messageOr e "Failed to save to Google")),
         [uploadCall nowMs base64Data, listCall, createCall, headerCall sid])) ∧
    (∀ df firstId restIds e, env.uploadResult = .ok df →
      env.listResult = .ok (some (firstId :: restIds)) → env.appendResult = .error e →
      saveToGoogleHandler (some tokensStr) body env nowMs nowIso =
        (.response 500 (.errorBody (messageOr e "Failed to save to Google")),
         [uploadCall nowMs base64Data, listCall,
          appendCall firstId nowIso body.prompt body.aspectRatio df.webViewLink])) ∧
    (∀ df sid e, env.uploadResult = .ok df →
      (env.listResult = .ok none ∨ env.listResult = .ok (some [])) →
      env.createResult = .ok sid → env.updateResult = .ok () → env.appendResult = .error e →
      saveToGoogleHandler (some tokensStr) body env nowMs nowIso =
        (.response 500 (.errorBody (messageOr e "Failed to save to Google")),
         [uploadCall nowMs base64Data, listCall, createCall, headerCall sid,
          appendCall sid nowIso body.prompt body.aspectRatio df.webViewLink])) := by
  refine ⟨?_, ?_, ?_, ?_, ?_, ?_⟩
  · intro e hu
    simp [saveToGoogleHandler, hparse, himg, hu, uploadCall]
  · intro df e hu hl
    simp [saveToGoogleHandler, hparse, himg, hu, hl, uploadCall, listCall]
  · rintro df e hu (hl | hl) hc <;>
      simp [saveToGoogleHandler, hparse, himg, hu, hl, hc, uploadCall, listCall, createCall]
  · rintro df sid e hu (hl | hl) hc hupd <;>
      simp [saveToGoogleHandler, hparse, himg, hu, hl, hc, hupd,
        uploadCall, listCall, createCall, headerCall]
  · intro df firstId restIds e hu hl ha
    simp [saveToGoogleHandler, hparse, himg, hu, hl, ha, uploadCall, listCall, appendCall]
  · rintro df sid e hu (hl | hl) hc hupd ha <;>
      simp [saveToGoogleHandler, hparse, himg, hu, hl, hc, hupd, ha,
        uploadCall, listCall, createCall, headerCall, appendCall]

/-- Claim C5, witness: instantiated on a concrete request with a parseable
cookie and well-formed `imageData`, against the environment whose append step
fails — exhibiting the 500 abort with the failing step's message and the
trace of all prior calls left in place. -/
theorem claim_C5_step_failure_aborts_witness :
    (∀ e, appendFailEnv.uploadResult = .error e →
      saveToGoogleHandler (some "{}") sampleBody appendFailEnv 7 "iso" =
        (.response 500 (.errorBody (messageOr e "Failed to save to Google")),
         [uploadCall 7 "AAAA"])) ∧
    (∀ df e, appendFailEnv.uploadResult = .ok df → appendFailEnv.listResult = .error e →
      saveToGoogleHandler (some "{}") sampleBody appendFailEnv 7 "iso" =
        (.response 500 (.errorBody (messageOr e "Failed to save to Google")),
         [uploadCall 7 "AAAA", listCall])) ∧
    (∀ df e, appendFailEnv.uploadResult = .ok df →
      (appendFailEnv.listResult = .ok none ∨ appendFailEnv.listResult = .ok (some [])) →
      appendFailEnv.createResult = .error e →
      saveToGoogleHandler (some "{}") sampleBody appendFailEnv 7 "iso" =
        (.response 500 (.errorBody (messageOr e "Failed to save to Google")),
         [uploadCall 7 "AAAA", listCall, createCall])) ∧
    (∀ df sid e, appendFailEnv.uploadResult = .ok df →
      (appendFailEnv.listResult = .ok none ∨ appendFailEnv.listResult = .ok (some [])) →
      appendFailEnv.createResult = .ok sid → appendFailEnv.updateResult = .error e →
      saveToGoogleHandler (some "{}") sampleBody appendFailEnv 7 "iso" =
        (.response 500 (.errorBody (messageOr e "Failed to save to Google")),
         [uploadCall 7 "AAAA", listCall, createCall, headerCall sid])) ∧
    (∀ df firstId restIds e, appendFailEnv.uploadResult = .ok df →
      appendFailEnv.listResult = .ok (some (firstId :: restIds)) →
      appendFailEnv.appendResult = .error e →
      saveToGoogleHandler (some "{}") sampleBody appendFailEnv 7 "iso" =
        (.response 500 (.errorBody (messageOr e "Failed to save to Google")),
         [uploadCall 7 "AAAA", listCall,
          appendCall firstId "iso" sampleBody.prompt sampleBody.aspectRatio df.webViewLink])) ∧
    (∀ df sid e, appendFailEnv.uploadResult = .ok df →
      (appendFailEnv.listResult = .ok none ∨ appendFailEnv.listResult = .ok (some [])) →
      appendFailEnv.createResult = .ok sid → appendFailEnv.updateResult = .ok () →
      appendFailEnv.appendResult = .error e →
      saveToGoogleHandler (some "{}") sampleBody appendFailEnv 7 "iso" =
        (.response 500 (.errorBody (messageOr e "Failed to save to Google")),
         [uploadCall 7 "AAAA", listCall, createCall, headerCall sid,
          appendCall sid "iso" sampleBody.prompt sampleBody.aspectRatio df.webViewLink])) :=
  claim_C5_step_failure_aborts "{}" "AAAA" sampleBody appendFailEnv 7 "iso" (by decide) rfl

end Visionary
